import Mathlib

/-!
Shallow embedding of the T-Assign carrier-integration service
(UPS authentication token lifecycle, rate-service orchestration and
request/response mapping), translated from:

  src/carriers/ups/auth.ts
  src/carriers/ups/service.ts
  src/carriers/ups/mapper.ts
  src/carriers/ups/types.ts
  src/errors/index.ts
  src/domain/models.ts

JavaScript numbers that arise from string parsing are modelled as
rationals plus an explicit NaN value; stateful code (the token cache and
the in-flight refresh marker) is modelled by explicit state passing, and
the single-threaded event-loop execution of N concurrent getAccessToken
callers is modelled as a step function on a loop state.  Network I/O is
modelled by outcome parameters: each network interaction point takes the
outcome the transport would deliver.
-/

--------------------------------------------------------------------------------
-- JavaScript numeric and string primitives
--------------------------------------------------------------------------------

/-- JavaScript number restricted to the values produced by the code under
study: either a rational value or NaN. -/
inductive JSNum where
  | num (q : ℚ)
  | nan
  deriving DecidableEq, Repr

/-- Test for NaN, modelling the JavaScript isNaN check. -/
def JSNum.isNaN : JSNum → Bool
  | .num _ => false
  | .nan => true

/-- Numeric value of a list of decimal digit characters, most significant
first (the accumulator loop shared by the string-to-number conversions). -/
def digitsToNat (ds : List Char) : ℕ :=
  ds.foldl (fun a c => a * 10 + (c.toNat - 48)) 0

/-- Sign prefix handling shared by the JavaScript numeric conversions:
strips one leading plus or minus sign and reports the sign as a rational
factor. -/
def readSign : List Char → ℚ × List Char
  | '-' :: r => (-1, r)
  | '+' :: r => (1, r)
  | cs => (1, cs)

/-- Decimal mantissa reader: consumes leading integer digits, an optional
decimal point and fraction digits.  Returns none when no digit at all was
consumed (which JavaScript turns into NaN), otherwise the rational value
and the unconsumed remainder of the input. -/
def readDecimal (cs : List Char) : Option (ℚ × List Char) :=
  let ds := cs.takeWhile Char.isDigit
  let rest := cs.dropWhile Char.isDigit
  let fracPair : List Char × List Char :=
    match rest with
    | '.' :: r => (r.takeWhile Char.isDigit, r.dropWhile Char.isDigit)
    | _ => ([], rest)
  let fds := fracPair.1
  let rest2 := fracPair.2
  if ds.isEmpty ∧ fds.isEmpty then none
  else
    some ((digitsToNat ds : ℚ) + (digitsToNat fds : ℚ) / 10 ^ fds.length, rest2)

/-- Optional exponent reader for the JavaScript float syntax: an e or E
followed by an optionally signed digit string.  A malformed exponent is
ignored, as parseFloat ignores trailing garbage. -/
def readExponent (cs : List Char) : ℤ :=
  match cs with
  | c :: r =>
    if c = 'e' ∨ c = 'E' then
      let sr : ℤ × List Char :=
        match r with
        | '-' :: r2 => (-1, r2)
        | '+' :: r2 => (1, r2)
        | _ => (1, r)
      let eds := sr.2.takeWhile Char.isDigit
      if eds.isEmpty then 0 else sr.1 * (digitsToNat eds : ℤ)
    else 0
  | [] => 0

/-- Model of the JavaScript parseFloat builtin on finite decimal notation:
skips leading whitespace, reads an optional sign and the longest decimal
prefix (with optional fraction and exponent); NaN when no digits are
found. -/
def jsParseFloat (s : String) : JSNum :=
  let cs := s.data.dropWhile Char.isWhitespace
  let sgn := readSign cs
  match readDecimal sgn.2 with
  | none => .nan
  | some (m, rest) => .num (sgn.1 * m * (10 : ℚ) ^ readExponent rest)

/-- Model of the JavaScript parseInt builtin with radix 10: skips leading
whitespace, reads an optional sign and the longest digit prefix; NaN when
no digits are found. -/
def jsParseInt10 (s : String) : JSNum :=
  let cs := s.data.dropWhile Char.isWhitespace
  let sgn := readSign cs
  let ds := sgn.2.takeWhile Char.isDigit
  if ds.isEmpty then .nan else .num (sgn.1 * (digitsToNat ds : ℚ))

/-- Model of the JavaScript Number(string) coercion on finite decimal
notation: trims whitespace, maps the empty string to 0, and requires the
whole remaining string to be a signed decimal literal, else NaN. -/
def jsNumberOfString (s : String) : JSNum :=
  let cs := (s.data.dropWhile Char.isWhitespace).reverse.dropWhile Char.isWhitespace
  let cs := cs.reverse
  if cs.isEmpty then .num 0
  else
    let sgn := readSign cs
    match readDecimal sgn.2 with
    | none => .nan
    | some (m, rest) =>
      match rest with
      | c :: r =>
        if c = 'e' ∨ c = 'E' then
          let sr : ℤ × List Char :=
            match r with
            | '-' :: r2 => (-1, r2)
            | '+' :: r2 => (1, r2)
            | _ => (1, r)
          let eds := sr.2.takeWhile Char.isDigit
          if eds.isEmpty ∨ ¬(sr.2.dropWhile Char.isDigit).isEmpty then .nan
          else .num (sgn.1 * m * (10 : ℚ) ^ (sr.1 * (digitsToNat eds : ℤ)))
        else .nan
      | [] => .num (sgn.1 * m)

/-- Model of the JavaScript toFixed(1) rendering: rounds the value to one
decimal digit (ties towards the larger integer numerator, per the
ECMAScript specification) and prints it with exactly one fraction
digit. -/
def jsToFixed1 (q : ℚ) : String :=
  let n : ℤ := ⌊q * 10 + 1 / 2⌋
  let m : ℕ := n.natAbs
  ((if n < 0 then "-" else "") ++ toString (m / 10)) ++ "." ++
    String.mk [Char.ofNat (48 + m % 10)]

/-- Smallest exponent k (up to 64) with d dividing 10 ^ k, used to render
a rational with a decimal denominator the way JavaScript prints it. -/
def decExponent (d : ℕ) : Option ℕ :=
  (List.range 65).find? (fun k => 10 ^ k % d = 0)

/-- Digit string of n, left-padded with zeros to length k. -/
def natDigitsPadded (n k : ℕ) : String :=
  let s := toString n
  String.mk (List.replicate (k - s.length) '0') ++ s

/-- Model of the JavaScript Number toString rendering for values with a
decimal denominator: the shortest decimal expansion, with no fraction
part for whole numbers. -/
def jsNumToString (q : ℚ) : String :=
  let sign := if q < 0 then "-" else ""
  let a : ℚ := |q|
  match decExponent a.den with
  | some 0 => sign ++ toString a.num.natAbs
  | some k =>
    let n := (a * 10 ^ k).num.natAbs
    sign ++ toString (n / 10 ^ k) ++ "." ++ natDigitsPadded (n % 10 ^ k) k
  | none => sign ++ toString a

/-- Truthiness of an optional JavaScript string (undefined and the empty
string are falsy). -/
def jsTruthyStr : Option String → Bool
  | none => false
  | some s => s ≠ ""

/-- Model of the JavaScript short-circuit expression (o or fallback) on
an optional string: the string when present and truthy, else the
fallback. -/
def jsOrString (o : Option String) (fallback : String) : String :=
  match o with
  | some s => if s = "" then fallback else s
  | none => fallback

--------------------------------------------------------------------------------
-- Error taxonomy (src/errors/index.ts)
--------------------------------------------------------------------------------

/-- Closed taxonomy of the classified error kinds thrown by the code under
study, one variant per error class of src/errors/index.ts reachable from
the UPS auth manager and rate service, each carrying the kind-specific
fields the code stores on the instance. -/
inductive CarrierError where
  | validation
  | invalidCredentials
  | authentication (httpStatus : Option ℕ)
  | timeout (timeoutMs : ℤ)
  | network
  | carrierApi (httpStatus : ℕ)
  | rateLimit (retryAfterSeconds : Option JSNum)
  | responseParsing
  deriving DecidableEq, Repr

/-- Stable code string of each error class, from the readonly code fields
in src/errors/index.ts. -/
def CarrierError.code : CarrierError → String
  | .validation => "VALIDATION_ERROR"
  | .invalidCredentials => "INVALID_CREDENTIALS"
  | .authentication _ => "AUTHENTICATION_ERROR"
  | .timeout _ => "TIMEOUT_ERROR"
  | .network => "NETWORK_ERROR"
  | .carrierApi _ => "CARRIER_API_ERROR"
  | .rateLimit _ => "RATE_LIMIT_ERROR"
  | .responseParsing => "RESPONSE_PARSING_ERROR"

/-- Retryability flag of each error class, from src/errors/index.ts; the
CarrierApiError constructor computes it as httpStatus at least 500 or
exactly 429. -/
def CarrierError.isRetryable : CarrierError → Bool
  | .validation => false
  | .invalidCredentials => false
  | .authentication _ => false
  | .timeout _ => true
  | .network => true
  | .carrierApi s => decide (500 ≤ s) || decide (s = 429)
  | .rateLimit _ => true
  | .responseParsing => false

--------------------------------------------------------------------------------
-- Domain model (src/domain/models.ts, restricted to validated values)
--------------------------------------------------------------------------------

/-- Weight unit enumeration of the domain model. -/
inductive WeightUnit where
  | LB
  | KG
  deriving DecidableEq, Repr

/-- Wire code string of a weight unit (the zod enum literal). -/
def WeightUnit.code : WeightUnit → String
  | .LB => "LB"
  | .KG => "KG"

/-- Dimension unit enumeration of the domain model. -/
inductive DimensionUnit where
  | IN
  | CM
  deriving DecidableEq, Repr

/-- Wire code string of a dimension unit (the zod enum literal). -/
def DimensionUnit.code : DimensionUnit → String
  | .IN => "IN"
  | .CM => "CM"

/-- Service level enumeration of the domain model; every literal is a
nonempty string, so a present service level is always truthy. -/
inductive ServiceLevel where
  | GROUND
  | EXPRESS
  | STANDARD
  deriving DecidableEq, Repr

/-- Domain address value object. -/
structure Address where
  addressLines : List String
  city : String
  stateProvinceCode : String
  postalCode : String
  countryCode : String
  deriving DecidableEq, Repr

/-- Domain shipper contact. -/
structure Contact where
  name : String
  deriving DecidableEq, Repr

/-- Domain package weight; the zod schema constrains the value to a
positive number, carried here as a rational. -/
structure Weight where
  value : ℚ
  unit : WeightUnit
  deriving DecidableEq, Repr

/-- Domain package dimensions. -/
structure Dimensions where
  length : ℚ
  width : ℚ
  height : ℚ
  unit : DimensionUnit
  deriving DecidableEq, Repr

/-- Domain package: a weight plus optional dimensions. -/
structure Package where
  weight : Weight
  dimensions : Option Dimensions
  deriving DecidableEq, Repr

/-- Domain rate request (already validated against RateRequestSchema). -/
structure RateRequest where
  origin : Address
  destination : Address
  shipper : Contact
  packages : List Package
  serviceLevel : Option ServiceLevel
  deriving DecidableEq, Repr

/-- Domain monetary value as produced by the mapper: an amount parsed from
a carrier decimal string plus a currency code. -/
structure Money where
  amount : JSNum
  currency : String
  deriving DecidableEq, Repr

/-- Billing weight entry of a quote as produced by the mapper. -/
structure QuoteBillingWeight where
  value : JSNum
  unit : String
  deriving DecidableEq, Repr

/-- Normalized rate quote as built by fromUPSRateResponse, one field per
property of the object literal in src/carriers/ups/mapper.ts. -/
structure RateQuote where
  serviceLevel : String
  serviceName : String
  carrierServiceCode : String
  totalCost : Money
  transportationCost : Option Money
  serviceOptionsCost : Option Money
  billingWeight : Option QuoteBillingWeight
  businessDaysInTransit : Option JSNum
  warnings : Option (List String)
  deriving DecidableEq, Repr

/-- Response status block of the normalized domain response. -/
structure DomainResponseStatus where
  Code : String
  Description : String
  deriving DecidableEq, Repr

/-- Response wrapper of the normalized domain response. -/
structure DomainResponseBlock where
  ResponseStatus : DomainResponseStatus
  deriving DecidableEq, Repr

/-- Body of the normalized domain response. -/
structure DomainRateResponseBody where
  Response : DomainResponseBlock
  RatedShipment : List RateQuote
  deriving DecidableEq, Repr

/-- Normalized domain rate response returned by fromUPSRateResponse. -/
structure DomainRateResponse where
  RateResponse : DomainRateResponseBody
  deriving DecidableEq, Repr

--------------------------------------------------------------------------------
-- UPS wire request DTO (src/carriers/ups/types.ts, UPSRateRequest)
--------------------------------------------------------------------------------

/-- Transaction reference block of the wire request. -/
structure UPSTransactionReference where
  CustomerContext : String
  deriving DecidableEq, Repr

/-- Request block of the wire request. -/
structure UPSRequestBlock where
  RequestOption : String
  TransactionReference : Option UPSTransactionReference
  deriving DecidableEq, Repr

/-- Code and description pair used for the packaging type. -/
structure UPSCodeDescription where
  Code : String
  Description : String
  deriving DecidableEq, Repr

/-- Unit of measurement block carrying only a code. -/
structure UPSUnitCode where
  Code : String
  deriving DecidableEq, Repr

/-- Package weight block of a wire package. -/
structure UPSPackageWeight where
  UnitOfMeasurement : UPSUnitCode
  Weight : String
  deriving DecidableEq, Repr

/-- Dimensions block of a wire package. -/
structure UPSWireDimensions where
  UnitOfMeasurement : UPSUnitCode
  Length : String
  Width : String
  Height : String
  deriving DecidableEq, Repr

/-- One package entry of the wire request. -/
structure UPSWirePackage where
  PackagingType : UPSCodeDescription
  PackageWeight : UPSPackageWeight
  Dimensions : Option UPSWireDimensions
  deriving DecidableEq, Repr

/-- Shipper block of the wire request. -/
structure UPSShipper where
  Name : String
  ShipperNumber : String
  Address : Address
  deriving DecidableEq, Repr

/-- Ship-to and ship-from party block of the wire request. -/
structure UPSShipParty where
  Name : String
  Address : Address
  deriving DecidableEq, Repr

/-- Shipment rating options block of the wire request. -/
structure UPSShipmentRatingOptions where
  NegotiatedRatesIndicator : String
  deriving DecidableEq, Repr

/-- Shipment block of the wire request. -/
structure UPSWireShipment where
  Shipper : UPSShipper
  ShipTo : UPSShipParty
  ShipFrom : UPSShipParty
  Package : List UPSWirePackage
  ShipmentRatingOptions : UPSShipmentRatingOptions
  deriving DecidableEq, Repr

/-- Body of the wire request. -/
structure UPSRateRequestBody where
  Request : UPSRequestBlock
  Shipment : UPSWireShipment
  deriving DecidableEq, Repr

/-- Top-level wire request DTO sent to the rating endpoint. -/
structure UPSRateRequestWire where
  RateRequest : UPSRateRequestBody
  deriving DecidableEq, Repr

--------------------------------------------------------------------------------
-- Domain to wire mapper (src/carriers/ups/mapper.ts, toUPSRateRequest)
--------------------------------------------------------------------------------

/-- One wire package entry built from a domain package, from the map
callback inside toUPSRateRequest. -/
def toUPSWirePackage (pkg : Package) : UPSWirePackage :=
  { PackagingType := { Code := "02", Description := "YOUR_PACKAGING" }
  , PackageWeight :=
      { UnitOfMeasurement := { Code := pkg.weight.unit.code }
      , Weight := jsToFixed1 pkg.weight.value }
  , Dimensions :=
      pkg.dimensions.map fun d =>
        { UnitOfMeasurement := { Code := d.unit.code }
        , Length := jsNumToString d.length
        , Width := jsNumToString d.width
        , Height := jsNumToString d.height } }

/-- Domain to wire request mapper, from toUPSRateRequest in
src/carriers/ups/mapper.ts.  The customer context is an optional string
whose JavaScript truthiness decides whether a transaction reference block
is emitted; the request option is Rate when a service level is named and
Shop otherwise. -/
def toUPSRateRequest (request : RateRequest) (shipperNumber : String)
    (customerContext : Option String) : UPSRateRequestWire :=
  { RateRequest :=
    { Request :=
      { RequestOption := if request.serviceLevel.isSome then "Rate" else "Shop"
      , TransactionReference :=
          if jsTruthyStr customerContext then
            some { CustomerContext := customerContext.getD "" }
          else none }
    , Shipment :=
      { Shipper :=
          { Name := request.shipper.name
          , ShipperNumber := shipperNumber
          , Address := request.origin }
      , ShipTo := { Name := "Recipient", Address := request.destination }
      , ShipFrom := { Name := request.shipper.name, Address := request.origin }
      , Package := request.packages.map toUPSWirePackage
      , ShipmentRatingOptions := { NegotiatedRatesIndicator := "Y" } } } }

--------------------------------------------------------------------------------
-- UPS wire response DTO (src/carriers/ups/types.ts, UPSRateResponse)
--------------------------------------------------------------------------------

/-- Carrier alert entry. -/
structure UPSAlert where
  Code : String
  Description : String
  deriving DecidableEq, Repr

/-- Carrier response status block. -/
structure UPSResponseStatus where
  Code : String
  Description : String
  deriving DecidableEq, Repr

/-- Optional response block of the carrier wire response. -/
structure UPSResponseBlock where
  ResponseStatus : UPSResponseStatus
  TransactionReference : Option UPSTransactionReference
  Alert : Option (List UPSAlert)
  deriving DecidableEq, Repr

/-- Currency code plus decimal-string amount pair. -/
structure UPSCharges where
  CurrencyCode : String
  MonetaryValue : String
  deriving DecidableEq, Repr

/-- Service identification of a rated shipment; the description is
optional in the DTO. -/
structure UPSService where
  Code : String
  Description : Option String
  deriving DecidableEq, Repr

/-- Unit of measurement with an optional description, as used by billing
weights. -/
structure UPSUnitOfMeasurement where
  Code : String
  Description : Option String
  deriving DecidableEq, Repr

/-- Billing weight block of a rated shipment. -/
structure UPSBillingWeight where
  UnitOfMeasurement : UPSUnitOfMeasurement
  Weight : String
  deriving DecidableEq, Repr

/-- Guaranteed delivery block of a rated shipment. -/
structure UPSGuaranteedDelivery where
  BusinessDaysInTransit : Option String
  DeliveryByTime : Option String
  deriving DecidableEq, Repr

/-- Negotiated rate charges block of a rated shipment. -/
structure UPSNegotiatedRateCharges where
  TotalCharge : UPSCharges
  deriving DecidableEq, Repr

/-- Rated package entry of a rated shipment (not consumed by the mapper
but part of the DTO). -/
structure UPSRatedPackage where
  Weight : String
  BillingWeight : Option UPSBillingWeight
  TransportationCharges : Option UPSCharges
  TotalCharges : Option UPSCharges
  deriving DecidableEq, Repr

/-- One rated shipment entry of the carrier wire response. -/
structure UPSRatedShipment where
  Service : UPSService
  BillingWeight : Option UPSBillingWeight
  TransportationCharges : Option UPSCharges
  ServiceOptionsCharges : Option UPSCharges
  TotalCharges : UPSCharges
  GuaranteedDelivery : Option UPSGuaranteedDelivery
  RatedPackage : Option (List UPSRatedPackage)
  RatedShipmentAlert : Option (List UPSAlert)
  NegotiatedRateCharges : Option UPSNegotiatedRateCharges
  deriving DecidableEq, Repr

/-- Carrier wire response per the declared DTO type: an optional response
block and a list of rated shipments. -/
structure UPSRateResponseT where
  Response : Option UPSResponseBlock
  RatedShipment : List UPSRatedShipment
  deriving DecidableEq, Repr

/-- Runtime shape of a rating-endpoint success body before the structural
check in callRatingApi: both levels may be missing, as probed by the
optional chaining in src/carriers/ups/service.ts. -/
structure UPSRateResponseRuntimeBody where
  Response : Option UPSResponseBlock
  RatedShipment : Option (List UPSRatedShipment)
  deriving DecidableEq, Repr

/-- Runtime top-level body of a rating-endpoint success response. -/
structure UPSRateResponseRuntime where
  RateResponse : Option UPSRateResponseRuntimeBody
  deriving DecidableEq, Repr

--------------------------------------------------------------------------------
-- Wire to domain mapper (src/carriers/ups/mapper.ts, fromUPSRateResponse)
--------------------------------------------------------------------------------

/-- One normalized quote built from a rated shipment, from the map
callback inside fromUPSRateResponse. -/
def toRateQuote (rated : UPSRatedShipment) : RateQuote :=
  { serviceLevel := jsOrString rated.Service.Description "STANDARD"
  , serviceName := jsOrString rated.Service.Description "UPS Service"
  , carrierServiceCode := rated.Service.Code
  , totalCost :=
      { amount := jsParseFloat rated.TotalCharges.MonetaryValue
      , currency := rated.TotalCharges.CurrencyCode }
  , transportationCost :=
      rated.TransportationCharges.map fun c =>
        { amount := jsParseFloat c.MonetaryValue, currency := c.CurrencyCode }
  , serviceOptionsCost :=
      rated.ServiceOptionsCharges.map fun c =>
        { amount := jsParseFloat c.MonetaryValue, currency := c.CurrencyCode }
  , billingWeight :=
      rated.BillingWeight.map fun b =>
        { value := jsParseFloat b.Weight, unit := b.UnitOfMeasurement.Code }
  , businessDaysInTransit :=
      match rated.GuaranteedDelivery with
      | none => none
      | some g =>
        match g.BusinessDaysInTransit with
        | none => none
        | some s =>
          if s = "" then none
          else if (jsNumberOfString s).isNaN then none
          else some (jsParseInt10 s)
  , warnings :=
      rated.RatedShipmentAlert.map fun alerts => alerts.map (·.Description) }

/-- Wire to domain response mapper, from fromUPSRateResponse in
src/carriers/ups/mapper.ts.  The requestId and original request
parameters are accepted but unused, as in the source; the emitted
response status block is the constant code 1, description Success. -/
def fromUPSRateResponse (upsResponse : UPSRateResponseT) (_requestId : String)
    (_originalRequest : Option RateRequest) : DomainRateResponse :=
  let ratedShipments := upsResponse.RatedShipment
  let rates : List RateQuote := ratedShipments.map toRateQuote
  { RateResponse :=
    { Response :=
      { ResponseStatus := { Code := "1", Description := "Success" } }
    , RatedShipment := rates } }

--------------------------------------------------------------------------------
-- Configuration (src/config/index.ts, UPSConfig fields used by the core)
--------------------------------------------------------------------------------

/-- Configuration fields of UPSConfig consumed by the auth manager and the
rate service.  The zod schema requires clientId, clientSecret and
accountNumber to be nonempty strings; the raw strings are kept here so
that the missing-credential check in refreshToken stays visible. -/
structure UPSConfig where
  clientId : String
  clientSecret : String
  accountNumber : String
  timeoutMs : ℤ
  deriving DecidableEq, Repr

--------------------------------------------------------------------------------
-- Authentication manager (src/carriers/ups/auth.ts)
--------------------------------------------------------------------------------

/-- Cached OAuth credential, from the CachedToken interface: the opaque
access token, its absolute expiry in epoch milliseconds, and the token
type. -/
structure CachedToken where
  accessToken : String
  expiresAt : ℤ
  tokenType : String
  deriving DecidableEq, Repr

/-- Five-minute early-refresh margin in milliseconds, from
TOKEN_EXPIRY_BUFFER_MS. -/
def TOKEN_EXPIRY_BUFFER_MS : ℤ := 5 * 60 * 1000

/-- Token validity check, from UPSAuthManager.isTokenValid: a token is
valid when it exists and the current time is strictly before its expiry
minus the buffer. -/
def UPSAuthManager.isTokenValid (cached : Option CachedToken) (now : ℤ) : Bool :=
  match cached with
  | none => false
  | some t => decide (now < t.expiresAt - TOKEN_EXPIRY_BUFFER_MS)

/-- Success body of the token endpoint, from the UPSTokenResponse DTO
(the fields consumed by refreshToken). -/
structure UPSTokenResponse where
  access_token : String
  expires_in : ℤ
  token_type : String
  deriving DecidableEq, Repr

/-- Outcome delivered by the transport for one authentication network
call: a success body, an axios error carrying an optional transport error
code and an optional HTTP response status, or a failure that is not an
axios error at all. -/
inductive AuthNetOutcome where
  | ok (resp : UPSTokenResponse)
  | axios (code : Option String) (respStatus : Option ℕ)
  | otherFailure
  deriving DecidableEq, Repr

/-- Axios-failure classification of the auth manager, from
UPSAuthManager.handleAxiosError: transport timeout codes become a timeout
error, connection or DNS failure codes become a network error, an HTTP
401 or 403 response becomes invalid credentials, any other HTTP response
status becomes an authentication error carrying that status, and an axios
error without a response becomes a network error. -/
def UPSAuthManager.handleAxiosError (cfg : UPSConfig) (code : Option String)
    (respStatus : Option ℕ) : CarrierError :=
  if code = some "ECONNABORTED" ∨ code = some "ETIMEDOUT" then
    .timeout cfg.timeoutMs
  else if code = some "ENOTFOUND" ∨ code = some "ECONNREFUSED" then
    .network
  else
    match respStatus with
    | some status =>
      if status = 401 ∨ status = 403 then .invalidCredentials
      else .authentication (some status)
    | none => .network

/-- Token refresh, from UPSAuthManager.refreshToken.  A missing (empty)
client identifier or secret throws invalid credentials before any network
interaction; otherwise exactly one authentication network call is made
and its outcome is either turned into a fresh credential (expiry is the
current time plus expires_in seconds) or classified.  The second
component counts authentication network calls performed. -/
def UPSAuthManager.refreshToken (cfg : UPSConfig) (now : ℤ)
    (outcome : AuthNetOutcome) : Except CarrierError CachedToken × ℕ :=
  if cfg.clientId = "" ∨ cfg.clientSecret = "" then
    (.error .invalidCredentials, 0)
  else
    match outcome with
    | .ok resp =>
      (.ok { accessToken := resp.access_token
           , expiresAt := now + resp.expires_in * 1000
           , tokenType := resp.token_type }, 1)
    | .axios code respStatus =>
      (.error (UPSAuthManager.handleAxiosError cfg code respStatus), 1)
    | .otherFailure => (.error (.authentication none), 1)

/-- Result shape of one settled getAccessToken call: the token or error
delivered to the caller, the cache afterwards, and the number of
authentication network calls performed. -/
def tokenResultOf (r : Except CarrierError CachedToken) :
    Except CarrierError String :=
  match r with
  | .ok c => .ok c.accessToken
  | .error e => .error e

/-- Sequential (uncontended) semantics of UPSAuthManager.getAccessToken
for a single caller with no refresh in flight: return the cached token
when valid, otherwise run refreshToken, committing the new credential to
the cache on success and leaving the cache unchanged on failure (the
in-flight marker is set and cleared within the call, so it starts and
ends clear).  Returns the caller result, the cache afterwards and the
authentication network call count. -/
def UPSAuthManager.getAccessToken (cfg : UPSConfig) (cache : Option CachedToken)
    (now : ℤ) (outcome : AuthNetOutcome) :
    Except CarrierError String × Option CachedToken × ℕ :=
  if UPSAuthManager.isTokenValid cache now then
    (.ok (cache.elim "" (·.accessToken)), cache, 0)
  else
    match UPSAuthManager.refreshToken cfg now outcome with
    | (.ok c, k) => (.ok c.accessToken, some c, k)
    | (.error e, k) => (.error e, cache, k)

/-- Forced refresh, from UPSAuthManager.forceRefresh: the cached
credential is discarded (set to null) and getAccessToken is invoked,
which then necessarily takes the refresh path.  The previous cache
contents are accepted and ignored, as the source overwrites the field
unconditionally. -/
def UPSAuthManager.forceRefresh (cfg : UPSConfig) (_cache : Option CachedToken)
    (now : ℤ) (outcome : AuthNetOutcome) :
    Except CarrierError String × Option CachedToken × ℕ :=
  UPSAuthManager.getAccessToken cfg none now outcome

--------------------------------------------------------------------------------
-- Event-loop model of N concurrent getAccessToken callers
--------------------------------------------------------------------------------

/-- State of one getAccessToken caller in the event-loop model: either
already settled with a result, or suspended awaiting the shared in-flight
refresh promise. -/
inductive CallerState where
  | done (r : Except CarrierError String)
  | waiting
  deriving Repr

/-- Shared state of the event-loop model: the token cache, the in-flight
refresh marker (tokenRefreshPromise as a boolean presence flag), the
count of authentication network calls initiated so far, and the states of
the callers in arrival order. -/
structure LoopState where
  cache : Option CachedToken
  marker : Bool
  networkCalls : ℕ
  callers : List CallerState
  deriving Repr

/-- Synchronous prefix of one getAccessToken invocation, as executed
atomically by the single-threaded event loop up to the first suspension
point: a valid cached token is returned immediately; an in-flight refresh
is joined; otherwise refreshToken is started, which sets the marker and,
when the configured credentials are nonempty, initiates the one
authentication network call (with empty credentials the refresh promise
is created already rejected, still setting the marker until it
settles). -/
def callerArrive (cfg : UPSConfig) (now : ℤ) (s : LoopState) : LoopState :=
  if UPSAuthManager.isTokenValid s.cache now then
    { s with callers :=
        s.callers ++ [.done (.ok (s.cache.elim "" (·.accessToken)))] }
  else if s.marker then
    { s with callers := s.callers ++ [.waiting] }
  else if cfg.clientId = "" ∨ cfg.clientSecret = "" then
    { s with marker := true, callers := s.callers ++ [.waiting] }
  else
    { s with marker := true
           , networkCalls := s.networkCalls + 1
           , callers := s.callers ++ [.waiting] }

/-- Resolution of one suspended caller with the settled refresh result;
already settled callers are unchanged. -/
def resolveWaiting (r : Except CarrierError String) : CallerState → CallerState
  | .waiting => .done r
  | .done x => .done x

/-- Settlement of the in-flight refresh: when a refresh is pending, its
result (as computed by refreshToken for the delivered outcome) commits a
new credential to the cache on success, every suspended caller is resumed
with the identical result, and the finally block of the owning caller
clears the marker.  Without a pending refresh nothing happens. -/
def settleRefresh (cfg : UPSConfig) (now : ℤ) (outcome : AuthNetOutcome)
    (s : LoopState) : LoopState :=
  if s.marker then
    match (UPSAuthManager.refreshToken cfg now outcome).1 with
    | .ok c =>
      { cache := some c
      , marker := false
      , networkCalls := s.networkCalls
      , callers := s.callers.map (resolveWaiting (.ok c.accessToken)) }
    | .error e =>
      { s with marker := false
             , callers := s.callers.map (resolveWaiting (.error e)) }
  else s

/-- Arrival of n getAccessToken callers in sequence, each running its
synchronous prefix to completion before the next (single-threaded event
loop, no preemption). -/
def arriveN (cfg : UPSConfig) (now : ℤ) : ℕ → LoopState → LoopState
  | 0, s => s
  | k + 1, s => arriveN cfg now k (callerArrive cfg now s)

/-- Full event-loop run of the concurrency scenario: n getAccessToken
calls arrive while the single refresh (if any was started) is still in
flight, then the refresh settles with the given outcome. -/
def runConcurrentGetAccessToken (cfg : UPSConfig) (cache : Option CachedToken)
    (now : ℤ) (n : ℕ) (outcome : AuthNetOutcome) : LoopState :=
  settleRefresh cfg now outcome
    (arriveN cfg now n { cache := cache, marker := false, networkCalls := 0, callers := [] })

--------------------------------------------------------------------------------
-- Rate service orchestrator (src/carriers/ups/service.ts)
--------------------------------------------------------------------------------

/-- HTTP error response attached to an axios failure of the rating call:
the status and the optional retry-after header value. -/
structure HttpErrorResponse where
  status : ℕ
  retryAfterHeader : Option String
  deriving DecidableEq, Repr

/-- Outcome delivered by the transport for one rating-endpoint call: an
HTTP success with its (runtime-shaped) body, an axios error carrying an
optional transport error code and an optional HTTP error response, or a
failure that is not an axios error at all. -/
inductive ApiOutcome where
  | ok (body : UPSRateResponseRuntime)
  | axios (code : Option String) (resp : Option HttpErrorResponse)
  | otherFailure
  deriving DecidableEq, Repr

/-- Axios-failure classification of the rate service, from
UPSRateService.handleAxiosError: transport timeout codes become a timeout
error carrying the configured timeout, connection or DNS failure codes
become a network error, an HTTP 429 response becomes a rate limit error
whose retry-after seconds are parsed from the header when it is truthy,
any other HTTP response status becomes a carrier API error carrying that
status, and an axios error without a response becomes a network error. -/
def UPSRateService.handleAxiosError (cfg : UPSConfig) (code : Option String)
    (resp : Option HttpErrorResponse) : CarrierError :=
  if code = some "ECONNABORTED" ∨ code = some "ETIMEDOUT" then
    .timeout cfg.timeoutMs
  else if code = some "ENOTFOUND" ∨ code = some "ECONNREFUSED"
      ∨ code = some "ECONNRESET" then
    .network
  else
    match resp with
    | some r =>
      if r.status = 429 then
        .rateLimit
          (if jsTruthyStr r.retryAfterHeader then
            some (jsParseInt10 (r.retryAfterHeader.getD ""))
          else none)
      else .carrierApi r.status
    | none => .network

/-- Structural probe of a rating success body, modelling the optional
chaining and truthiness test on response.data RateResponse RatedShipment
in callRatingApi; an empty rated-shipment array is a present (truthy)
value. -/
def ratedShipmentOf (body : UPSRateResponseRuntime) :
    Option (Option UPSResponseBlock × List UPSRatedShipment) :=
  match body.RateResponse with
  | none => none
  | some inner =>
    match inner.RatedShipment with
    | none => none
    | some l => some (inner.Response, l)

/-- Rating-endpoint call, from UPSRateService.callRatingApi: an HTTP
success whose body lacks the rated-shipment list raises a response
parsing error (rethrown untouched by the catch block); an axios failure
is classified by handleAxiosError; any other failure becomes a network
error. -/
def UPSRateService.callRatingApi (cfg : UPSConfig) (outcome : ApiOutcome) :
    Except CarrierError UPSRateResponseT :=
  match outcome with
  | .ok body =>
    match ratedShipmentOf body with
    | none => .error .responseParsing
    | some (respBlock, l) => .ok { Response := respBlock, RatedShipment := l }
  | .axios code resp => .error (UPSRateService.handleAxiosError cfg code resp)
  | .otherFailure => .error .network

/-- Auth-error test of the rate service, from UPSRateService.isAuthError:
the failure is an instance of CarrierApiError and its HTTP status is 401
or 403. -/
def UPSRateService.isAuthError : CarrierError → Bool
  | .carrierApi s => decide (s = 401) || decide (s = 403)
  | _ => false

/-- Rate retrieval orchestration, from UPSRateService.getRates, for an
already validated request.  Network interactions are supplied as
outcomes: the token acquisition result, the first rating-call outcome,
the forced-refresh result, and the second rating-call outcome (the latter
two are consulted only on the auth-retry path).  Returns the overall
result together with the log of rating API calls performed, each entry
recording the wire request sent and the bearer token used. -/
def UPSRateService.getRates (cfg : UPSConfig) (request : RateRequest)
    (requestId : String)
    (tokenOutcome : Except CarrierError String)
    (firstOutcome : ApiOutcome)
    (refreshOutcome : Except CarrierError String)
    (secondOutcome : ApiOutcome) :
    Except CarrierError DomainRateResponse × List (UPSRateRequestWire × String) :=
  match tokenOutcome with
  | .error e => (.error e, [])
  | .ok accessToken =>
    let upsRequest := toUPSRateRequest request cfg.accountNumber none
    match UPSRateService.callRatingApi cfg firstOutcome with
    | .ok resp =>
      (.ok (fromUPSRateResponse resp requestId (some request)),
       [(upsRequest, accessToken)])
    | .error e =>
      if UPSRateService.isAuthError e then
        match refreshOutcome with
        | .error e2 => (.error e2, [(upsRequest, accessToken)])
        | .ok freshToken =>
          match UPSRateService.callRatingApi cfg secondOutcome with
          | .ok resp =>
            (.ok (fromUPSRateResponse resp requestId (some request)),
             [(upsRequest, accessToken), (upsRequest, freshToken)])
          | .error e2 =>
            (.error e2, [(upsRequest, accessToken), (upsRequest, freshToken)])
      else (.error e, [(upsRequest, accessToken)])

--------------------------------------------------------------------------------
-- Concrete example values used by witnesses
--------------------------------------------------------------------------------

/-- Example address for concrete instantiations. -/
def addrEx : Address :=
  { addressLines := ["1 Main St"], city := "New York", stateProvinceCode := "NY"
  , postalCode := "10001", countryCode := "US" }

/-- Example package: five and a half pounds, no dimensions. -/
def pkgEx : Package :=
  { weight := { value := 11 / 2, unit := .LB }, dimensions := none }

/-- Example validated rate request without a named service level. -/
def reqEx : RateRequest :=
  { origin := addrEx, destination := addrEx, shipper := { name := "ACME" }
  , packages := [pkgEx], serviceLevel := none }

/-- Example validated rate request with a named service level. -/
def reqExGround : RateRequest :=
  { reqEx with serviceLevel := some .GROUND }

/-- Example configuration with nonempty credentials. -/
def cfgEx : UPSConfig :=
  { clientId := "client", clientSecret := "secret"
  , accountNumber := "A1B2C3", timeoutMs := 30000 }

/-- Example configuration with a missing (empty) client identifier. -/
def cfgNoCreds : UPSConfig :=
  { clientId := "", clientSecret := "secret"
  , accountNumber := "A1B2C3", timeoutMs := 30000 }

/-- Example token endpoint success body. -/
def tokRespEx : UPSTokenResponse :=
  { access_token := "tok-fresh", expires_in := 3600, token_type := "Bearer" }

/-- Example cached credential expiring at epoch millisecond 1000000. -/
def cachedEx : CachedToken :=
  { accessToken := "tok-cached", expiresAt := 1000000, tokenType := "Bearer" }

/-- Example rated shipment: no service description, a 500 USD total, a
non-numeric transit estimate and one alert. -/
def ratedEx : UPSRatedShipment :=
  { Service := { Code := "03", Description := none }
  , BillingWeight := none
  , TransportationCharges := none
  , ServiceOptionsCharges := none
  , TotalCharges := { CurrencyCode := "USD", MonetaryValue := "500" }
  , GuaranteedDelivery := some { BusinessDaysInTransit := some "abc", DeliveryByTime := none }
  , RatedPackage := none
  , RatedShipmentAlert := some [{ Code := "110971", Description := "warn" }]
  , NegotiatedRateCharges := none }

/-- Transport error codes the auth-side handleAxiosError classifies before
inspecting the HTTP response (timeout and connection-failure codes). -/
def authTransportCode (code : Option String) : Bool :=
  decide (code = some "ECONNABORTED") || decide (code = some "ETIMEDOUT")
    || decide (code = some "ENOTFOUND") || decide (code = some "ECONNREFUSED")

/-- Transport error codes the service-side handleAxiosError classifies
before inspecting the HTTP response (timeout and connection-failure
codes, including connection reset). -/
def serviceTransportCode (code : Option String) : Bool :=
  decide (code = some "ECONNABORTED") || decide (code = some "ETIMEDOUT")
    || decide (code = some "ENOTFOUND") || decide (code = some "ECONNREFUSED")
    || decide (code = some "ECONNRESET")

--------------------------------------------------------------------------------
-- C10: the mapper emits a constant success status
--------------------------------------------------------------------------------

/-- C10: for every wire response input, the wire-to-domain mapper output
carries a response-status block with code 1 and description Success,
regardless of the status block (or absence of one) in the carrier wire
response; the carrier response status is never propagated. -/
theorem fromUPSRateResponse_status_constant :
    ∀ (resp : UPSRateResponseT) (rid : String) (orig : Option RateRequest),
      (fromUPSRateResponse resp rid orig).RateResponse.Response =
        { ResponseStatus := { Code := "1", Description := "Success" } } :=
  fun _ _ _ => rfl

--------------------------------------------------------------------------------
-- C9: wire-to-domain quote normalization
--------------------------------------------------------------------------------

/-- C9: the wire-to-domain mapping produces one quote per rated shipment
(zero shipments give zero quotes without error); monetary amounts are
parsed from the carrier decimal strings with their currency code (the
string 500 in USD becomes the number 500 with currency USD);
business-days-in-transit is omitted when the field is missing or
non-numeric; the service level defaults to the fixed fallback STANDARD
when no description is supplied; and per-shipment alert descriptions
become the warning list of the quote. -/
theorem fromUPSRateResponse_normalization :
    ∀ (resp : UPSRateResponseT) (rid : String) (orig : Option RateRequest)
      (rated : UPSRatedShipment) (g : UPSGuaranteedDelivery) (s : String)
      (alerts : List UPSAlert),
      ((fromUPSRateResponse resp rid orig).RateResponse.RatedShipment
        = resp.RatedShipment.map toRateQuote) ∧
      (resp.RatedShipment = [] →
        (fromUPSRateResponse resp rid orig).RateResponse.RatedShipment = []) ∧
      ((toRateQuote rated).totalCost
        = { amount := jsParseFloat rated.TotalCharges.MonetaryValue
          , currency := rated.TotalCharges.CurrencyCode }) ∧
      (jsParseFloat "500" = JSNum.num 500) ∧
      (rated.GuaranteedDelivery = none →
        (toRateQuote rated).businessDaysInTransit = none) ∧
      (rated.GuaranteedDelivery = some g → g.BusinessDaysInTransit = none →
        (toRateQuote rated).businessDaysInTransit = none) ∧
      (rated.GuaranteedDelivery = some g → g.BusinessDaysInTransit = some s →
        (jsNumberOfString s).isNaN = true →
        (toRateQuote rated).businessDaysInTransit = none) ∧
      (rated.Service.Description = none →
        (toRateQuote rated).serviceLevel = "STANDARD") ∧
      (rated.RatedShipmentAlert = some alerts →
        (toRateQuote rated).warnings = some (alerts.map (·.Description))) := by
  intro resp rid orig rated g s alerts
  refine ⟨rfl, ?_, rfl, ?_, ?_, ?_, ?_, ?_, ?_⟩
  · intro h
    simp [fromUPSRateResponse, h]
  · simp +decide [jsParseFloat, readSign, readDecimal, readExponent, digitsToNat]
  · intro h
    simp [toRateQuote, h]
  · intro h1 h2
    simp [toRateQuote, h1, h2]
  · intro h1 h2 h3
    by_cases hs : s = "" <;> simp [toRateQuote, h1, h2, h3, hs]
  · intro h
    simp [toRateQuote, h, jsOrString]
  · intro h
    simp [toRateQuote, h]

/-- Witness for C9 at the example rated shipment and an empty response. -/
theorem fromUPSRateResponse_normalization_witness :
    (toRateQuote ratedEx).totalCost = { amount := JSNum.num 500, currency := "USD" } ∧
    (toRateQuote ratedEx).businessDaysInTransit = none ∧
    (toRateQuote ratedEx).serviceLevel = "STANDARD" ∧
    (toRateQuote ratedEx).warnings = some ["warn"] ∧
    (fromUPSRateResponse { Response := none, RatedShipment := [] } "rid"
        none).RateResponse.RatedShipment = [] := by
  have h := fromUPSRateResponse_normalization
    { Response := none, RatedShipment := [] } "rid" none ratedEx
    { BusinessDaysInTransit := some "abc", DeliveryByTime := none } "abc"
    [{ Code := "110971", Description := "warn" }]
  refine ⟨?_, ?_, ?_, ?_, h.2.1 rfl⟩
  · exact (h.2.2.1).trans (by
      simp +decide [ratedEx, jsParseFloat, readSign, readDecimal, readExponent,
        digitsToNat])
  · exact h.2.2.2.2.2.2.1 rfl rfl
      (by simp +decide [jsNumberOfString, readSign, readDecimal])
  · exact h.2.2.2.2.2.2.2.1 rfl
  · exact (h.2.2.2.2.2.2.2.2 rfl).trans rfl

--------------------------------------------------------------------------------
-- C8: domain-to-wire request mapping
--------------------------------------------------------------------------------

/-- C8: the domain-to-wire mapping produces a specific-service request
(RequestOption Rate) exactly when the request names a service level and a
shop-all request otherwise; the negotiated-rate indicator is always the
affirmative Y; a supplied (nonempty) correlation tag appears verbatim in
the transaction-reference field; and each package is rendered with the
fixed packaging-type code 02 and its weight rendered to one decimal
place. -/
theorem toUPSRateRequest_mapping :
    ∀ (request : RateRequest) (shipperNumber : String) (c : Option String)
      (ctx : String) (pkg : Package) (q : ℚ),
      (((toUPSRateRequest request shipperNumber c).RateRequest.Request.RequestOption
          = "Rate") ↔ request.serviceLevel.isSome = true) ∧
      (((toUPSRateRequest request shipperNumber c).RateRequest.Request.RequestOption
          = "Shop") ↔ request.serviceLevel = none) ∧
      ((toUPSRateRequest request shipperNumber c).RateRequest.Shipment.ShipmentRatingOptions
        = { NegotiatedRatesIndicator := "Y" }) ∧
      (ctx ≠ "" →
        (toUPSRateRequest request shipperNumber (some ctx)).RateRequest.Request.TransactionReference
          = some { CustomerContext := ctx }) ∧
      ((toUPSRateRequest request shipperNumber c).RateRequest.Shipment.Package
        = request.packages.map toUPSWirePackage) ∧
      ((toUPSWirePackage pkg).PackagingType
        = { Code := "02", Description := "YOUR_PACKAGING" }) ∧
      ((toUPSWirePackage pkg).PackageWeight.Weight = jsToFixed1 pkg.weight.value) ∧
      (0 ≤ q → ∃ ip d, Char.isDigit d = true ∧
        jsToFixed1 q = ip ++ "." ++ String.mk [d]) := by
  intro request shipperNumber c ctx pkg q
  refine ⟨?_, ?_, rfl, ?_, rfl, rfl, rfl, ?_⟩
  · cases hsl : request.serviceLevel <;>
      simp +decide [toUPSRateRequest, hsl]
  · cases hsl : request.serviceLevel <;>
      simp +decide [toUPSRateRequest, hsl]
  · intro h
    simp [toUPSRateRequest, jsTruthyStr, h]
  · intro hq
    refine ⟨(if (⌊q * 10 + 1 / 2⌋ : ℤ) < 0 then "-" else "") ++
      toString ((⌊q * 10 + 1 / 2⌋ : ℤ).natAbs / 10),
      Char.ofNat (48 + (⌊q * 10 + 1 / 2⌋ : ℤ).natAbs % 10), ?_, rfl⟩
    have hk : (⌊q * 10 + 1 / 2⌋ : ℤ).natAbs % 10 < 10 := Nat.mod_lt _ (by norm_num)
    set k := (⌊q * 10 + 1 / 2⌋ : ℤ).natAbs % 10 with hkdef
    interval_cases k <;> decide

/-- Witness for C8 at the example requests, a concrete correlation tag and
the example package weight of five and a half pounds. -/
theorem toUPSRateRequest_mapping_witness :
    ((toUPSRateRequest reqEx "A1B2C3" none).RateRequest.Request.RequestOption = "Shop") ∧
    ((toUPSRateRequest reqExGround "A1B2C3" none).RateRequest.Request.RequestOption = "Rate") ∧
    ((toUPSRateRequest reqEx "A1B2C3" (some "tag")).RateRequest.Request.TransactionReference
      = some { CustomerContext := "tag" }) ∧
    ((toUPSWirePackage pkgEx).PackageWeight.Weight = "5.5") ∧
    (∃ ip d, Char.isDigit d = true ∧
      jsToFixed1 (11 / 2) = ip ++ "." ++ String.mk [d]) := by
  have h1 := toUPSRateRequest_mapping reqEx "A1B2C3" none "tag" pkgEx (11 / 2)
  have h2 := toUPSRateRequest_mapping reqExGround "A1B2C3" none "tag" pkgEx (11 / 2)
  refine ⟨(h1.2.1).mpr rfl, (h2.1).mpr rfl, h1.2.2.2.1 (by decide), ?_,
    h1.2.2.2.2.2.2.2 (by norm_num)⟩
  have hv : (⌊(11 / 2 : ℚ) * 10 + 1 / 2⌋ : ℤ) = 55 := by norm_num
  exact (h1.2.2.2.2.2.2.1).trans (by
    show jsToFixed1 (11 / 2) = "5.5"
    rw [jsToFixed1, hv]
    decide)

--------------------------------------------------------------------------------
-- C5: failure classification of the token refresh
--------------------------------------------------------------------------------

/-- C5: a token-refresh attempt with a missing client identifier or secret
fails immediately with invalid credentials and no network call; an HTTP
401 or 403 from the auth endpoint yields invalid credentials
(non-retryable); any other HTTP error status yields an authentication
error carrying that status; transport timeout codes yield a retryable
timeout error; connection-refused and DNS-failure codes yield a retryable
network error; and a failure that is not an axios error is wrapped as an
authentication error. -/
theorem refreshToken_classification :
    ∀ (cfg : UPSConfig) (now : ℤ) (outcome : AuthNetOutcome)
      (code : Option String) (st : ℕ),
      ((cfg.clientId = "" ∨ cfg.clientSecret = "") →
        UPSAuthManager.refreshToken cfg now outcome
          = (.error .invalidCredentials, 0)) ∧
      (CarrierError.invalidCredentials.isRetryable = false) ∧
      (cfg.clientId ≠ "" → cfg.clientSecret ≠ "" →
        (authTransportCode code = false → (st = 401 ∨ st = 403) →
          UPSAuthManager.refreshToken cfg now (.axios code (some st))
            = (.error .invalidCredentials, 1)) ∧
        (authTransportCode code = false → st ≠ 401 → st ≠ 403 →
          UPSAuthManager.refreshToken cfg now (.axios code (some st))
            = (.error (.authentication (some st)), 1)) ∧
        ((code = some "ECONNABORTED" ∨ code = some "ETIMEDOUT") →
          ∀ r : Option ℕ,
            UPSAuthManager.refreshToken cfg now (.axios code r)
              = (.error (.timeout cfg.timeoutMs), 1)) ∧
        ((code = some "ENOTFOUND" ∨ code = some "ECONNREFUSED") →
          ∀ r : Option ℕ,
            UPSAuthManager.refreshToken cfg now (.axios code r)
              = (.error .network, 1)) ∧
        (UPSAuthManager.refreshToken cfg now .otherFailure
          = (.error (.authentication none), 1))) ∧
      ((CarrierError.timeout cfg.timeoutMs).isRetryable = true) ∧
      (CarrierError.network.isRetryable = true) := by
  intro cfg now outcome code st
  refine ⟨?_, rfl, ?_, rfl, rfl⟩
  · intro h
    rcases h with h | h <;> simp [UPSAuthManager.refreshToken, h]
  · intro h1 h2
    have hcond : ¬(cfg.clientId = "" ∨ cfg.clientSecret = "") := by tauto
    refine ⟨?_, ?_, ?_, ?_, ?_⟩
    · intro hc hst
      simp only [authTransportCode, Bool.or_eq_false_iff, decide_eq_false_iff_not] at hc
      obtain ⟨⟨⟨hA, hB⟩, hC⟩, hD⟩ := hc
      rcases hst with rfl | rfl <;>
        simp +decide [UPSAuthManager.refreshToken, UPSAuthManager.handleAxiosError,
          hcond, hA, hB, hC, hD]
    · intro hc hst1 hst2
      simp only [authTransportCode, Bool.or_eq_false_iff, decide_eq_false_iff_not] at hc
      obtain ⟨⟨⟨hA, hB⟩, hC⟩, hD⟩ := hc
      simp [UPSAuthManager.refreshToken, UPSAuthManager.handleAxiosError,
        hcond, hA, hB, hC, hD, hst1, hst2]
    · intro hc r
      simp [UPSAuthManager.refreshToken, UPSAuthManager.handleAxiosError, hcond, hc]
    · intro hc r
      have hne : ¬(code = some "ECONNABORTED" ∨ code = some "ETIMEDOUT") := by
        rcases hc with rfl | rfl <;> simp
      simp [UPSAuthManager.refreshToken, UPSAuthManager.handleAxiosError,
        hcond, hc, hne]
    · simp [UPSAuthManager.refreshToken, hcond]

/-- Witness for C5 at concrete configurations and outcomes. -/
theorem refreshToken_classification_witness :
    (UPSAuthManager.refreshToken cfgNoCreds 0 (.ok tokRespEx)
      = (.error .invalidCredentials, 0)) ∧
    (UPSAuthManager.refreshToken cfgEx 0 (.axios none (some 401))
      = (.error .invalidCredentials, 1)) ∧
    (UPSAuthManager.refreshToken cfgEx 0 (.axios none (some 500))
      = (.error (.authentication (some 500)), 1)) ∧
    (UPSAuthManager.refreshToken cfgEx 0 (.axios (some "ETIMEDOUT") none)
      = (.error (.timeout 30000), 1)) ∧
    (UPSAuthManager.refreshToken cfgEx 0 (.axios (some "ENOTFOUND") none)
      = (.error .network, 1)) ∧
    (UPSAuthManager.refreshToken cfgEx 0 .otherFailure
      = (.error (.authentication none), 1)) := by
  have hnc := refreshToken_classification cfgNoCreds 0 (.ok tokRespEx) none 401
  have h401 := refreshToken_classification cfgEx 0 .otherFailure none 401
  have h500 := refreshToken_classification cfgEx 0 .otherFailure none 500
  have hTo := refreshToken_classification cfgEx 0 .otherFailure (some "ETIMEDOUT") 401
  have hNf := refreshToken_classification cfgEx 0 .otherFailure (some "ENOTFOUND") 401
  refine ⟨hnc.1 (Or.inl rfl), ?_, ?_, ?_, ?_, ?_⟩
  · exact (h401.2.2.1 (by decide) (by decide)).1 (by decide) (Or.inl rfl)
  · exact (h500.2.2.1 (by decide) (by decide)).2.1 (by decide) (by decide) (by decide)
  · exact (hTo.2.2.1 (by decide) (by decide)).2.2.1 (Or.inr rfl) none
  · exact (hNf.2.2.1 (by decide) (by decide)).2.2.2.1 (Or.inl rfl) none
  · exact (h401.2.2.1 (by decide) (by decide)).2.2.2.2

--------------------------------------------------------------------------------
-- C6: failure classification of the rating call
--------------------------------------------------------------------------------

/-- C6: a rating-call HTTP 429 yields a rate limit error that is always
retryable, with retry-after seconds parsed from the carrier-supplied
header value when it is present and absent otherwise; every other HTTP
response status yields a carrier API error carrying the status, retryable
exactly when the status is at least 500 or equals 429; transport timeout
codes yield a retryable timeout error carrying the configured timeout;
connection-failure codes and anything unclassified yield a retryable
network error. -/
theorem rateService_error_classification :
    ∀ (cfg : UPSConfig) (code : Option String) (st : ℕ) (ra : Option String)
      (hdr : String) (r : Option JSNum),
      (serviceTransportCode code = false →
        UPSRateService.handleAxiosError cfg code
            (some { status := 429, retryAfterHeader := none })
          = .rateLimit none) ∧
      (serviceTransportCode code = false → hdr ≠ "" →
        UPSRateService.handleAxiosError cfg code
            (some { status := 429, retryAfterHeader := some hdr })
          = .rateLimit (some (jsParseInt10 hdr))) ∧
      (jsParseInt10 "30" = JSNum.num 30) ∧
      ((CarrierError.rateLimit r).isRetryable = true) ∧
      (serviceTransportCode code = false → st ≠ 429 →
        UPSRateService.handleAxiosError cfg code
            (some { status := st, retryAfterHeader := ra })
          = .carrierApi st) ∧
      (((CarrierError.carrierApi st).isRetryable = true) ↔ (500 ≤ st ∨ st = 429)) ∧
      ((code = some "ECONNABORTED" ∨ code = some "ETIMEDOUT") →
        ∀ resp : Option HttpErrorResponse,
          UPSRateService.handleAxiosError cfg code resp = .timeout cfg.timeoutMs) ∧
      ((CarrierError.timeout cfg.timeoutMs).isRetryable = true) ∧
      ((code = some "ENOTFOUND" ∨ code = some "ECONNREFUSED"
          ∨ code = some "ECONNRESET") →
        ∀ resp : Option HttpErrorResponse,
          UPSRateService.handleAxiosError cfg code resp = .network) ∧
      (serviceTransportCode code = false →
        UPSRateService.handleAxiosError cfg code none = .network) ∧
      (UPSRateService.callRatingApi cfg .otherFailure = .error .network) ∧
      (CarrierError.network.isRetryable = true) := by
  intro cfg code st ra hdr r
  have hsplit : serviceTransportCode code = false →
      ¬(code = some "ECONNABORTED") ∧ ¬(code = some "ETIMEDOUT")
        ∧ ¬(code = some "ENOTFOUND") ∧ ¬(code = some "ECONNREFUSED")
        ∧ ¬(code = some "ECONNRESET") := by
    intro hc
    simp only [serviceTransportCode, Bool.or_eq_false_iff,
      decide_eq_false_iff_not] at hc
    tauto
  refine ⟨?_, ?_, ?_, rfl, ?_, ?_, ?_, rfl, ?_, ?_, rfl, rfl⟩
  · intro hc
    obtain ⟨hA, hB, hC, hD, hE⟩ := hsplit hc
    simp [UPSRateService.handleAxiosError, hA, hB, hC, hD, hE, jsTruthyStr]
  · intro hc hh
    obtain ⟨hA, hB, hC, hD, hE⟩ := hsplit hc
    simp [UPSRateService.handleAxiosError, hA, hB, hC, hD, hE, jsTruthyStr, hh]
  · simp +decide [jsParseInt10, readSign, digitsToNat]
  · intro hc hst
    obtain ⟨hA, hB, hC, hD, hE⟩ := hsplit hc
    simp [UPSRateService.handleAxiosError, hA, hB, hC, hD, hE, hst]
  · constructor
    · intro hret
      simp only [CarrierError.isRetryable, Bool.or_eq_true, decide_eq_true_eq] at hret
      exact hret
    · intro hor
      simp only [CarrierError.isRetryable, Bool.or_eq_true, decide_eq_true_eq]
      exact hor
  · intro hc resp
    simp [UPSRateService.handleAxiosError, hc]
  · intro hc resp
    have hne : ¬(code = some "ECONNABORTED" ∨ code = some "ETIMEDOUT") := by
      rcases hc with rfl | rfl | rfl <;> simp
    simp [UPSRateService.handleAxiosError, hne, hc]
  · intro hc
    obtain ⟨hA, hB, hC, hD, hE⟩ := hsplit hc
    simp [UPSRateService.handleAxiosError, hA, hB, hC, hD, hE]

/-- Witness for C6 at a concrete configuration and concrete failures. -/
theorem rateService_error_classification_witness :
    (UPSRateService.handleAxiosError cfgEx none
        (some { status := 429, retryAfterHeader := none }) = .rateLimit none) ∧
    (UPSRateService.handleAxiosError cfgEx none
        (some { status := 429, retryAfterHeader := some "30" })
      = .rateLimit (some (jsParseInt10 "30"))) ∧
    (jsParseInt10 "30" = JSNum.num 30) ∧
    ((CarrierError.rateLimit (some (JSNum.num 30))).isRetryable = true) ∧
    (UPSRateService.handleAxiosError cfgEx none
        (some { status := 503, retryAfterHeader := none }) = .carrierApi 503) ∧
    ((CarrierError.carrierApi 503).isRetryable = true) ∧
    ((CarrierError.carrierApi 404).isRetryable = false) ∧
    (UPSRateService.handleAxiosError cfgEx (some "ECONNABORTED") none
      = .timeout 30000) ∧
    (UPSRateService.handleAxiosError cfgEx (some "ECONNRESET") none = .network) ∧
    (UPSRateService.handleAxiosError cfgEx none none = .network) ∧
    (UPSRateService.callRatingApi cfgEx .otherFailure = .error .network) := by
  have h := rateService_error_classification cfgEx none 503 none "30"
    (some (JSNum.num 30))
  have h404 := rateService_error_classification cfgEx none 404 none "30"
    (some (JSNum.num 30))
  have hTo := rateService_error_classification cfgEx (some "ECONNABORTED") 503
    none "30" (some (JSNum.num 30))
  have hRst := rateService_error_classification cfgEx (some "ECONNRESET") 503
    none "30" (some (JSNum.num 30))
  refine ⟨h.1 (by decide), h.2.1 (by decide) (by decide), h.2.2.1, h.2.2.2.1,
    h.2.2.2.2.1 (by decide) (by decide), ?_, ?_,
    hTo.2.2.2.2.2.2.1 (Or.inl rfl) none,
    hRst.2.2.2.2.2.2.2.2.1 (Or.inr (Or.inr rfl)) none,
    h.2.2.2.2.2.2.2.2.2.1 (by decide), h.2.2.2.2.2.2.2.2.2.2.1⟩
  · exact h.2.2.2.2.2.1.mpr (Or.inl (by norm_num))
  · by_contra hcon
    rw [Bool.not_eq_false] at hcon
    have := h404.2.2.2.2.2.1.mp hcon
    omega

--------------------------------------------------------------------------------
-- C7: structural check on the rating success body
--------------------------------------------------------------------------------

/-- C7: a successful HTTP response from the rating endpoint whose body
lacks the rated-shipments list raises a response parsing error
(non-retryable), never a generic error, and this failure is not an auth
error, so getRates propagates it after exactly one rating call with no
retry. -/
theorem callRatingApi_missing_shipments :
    ∀ (cfg : UPSConfig) (request : RateRequest) (rid t : String)
      (body : UPSRateResponseRuntime) (ro : Except CarrierError String)
      (so : ApiOutcome),
      ratedShipmentOf body = none →
      (UPSRateService.callRatingApi cfg (.ok body) = .error .responseParsing) ∧
      (CarrierError.responseParsing.isRetryable = false) ∧
      (CarrierError.responseParsing.code = "RESPONSE_PARSING_ERROR") ∧
      (UPSRateService.isAuthError .responseParsing = false) ∧
      (UPSRateService.getRates cfg request rid (.ok t) (.ok body) ro so
        = (.error .responseParsing,
           [(toUPSRateRequest request cfg.accountNumber none, t)])) := by
  intro cfg request rid t body ro so h
  have hcall : UPSRateService.callRatingApi cfg (.ok body)
      = .error .responseParsing := by
    simp [UPSRateService.callRatingApi, h]
  refine ⟨hcall, rfl, rfl, rfl, ?_⟩
  simp [UPSRateService.getRates, hcall, UPSRateService.isAuthError]

/-- Witness for C7 at a body whose top-level rate-response field is
absent. -/
theorem callRatingApi_missing_shipments_witness :
    (UPSRateService.callRatingApi cfgEx (.ok { RateResponse := none })
      = .error .responseParsing) ∧
    (UPSRateService.getRates cfgEx reqEx "rid" (.ok "tok")
        (.ok { RateResponse := none }) (.error .network) .otherFailure
      = (.error .responseParsing,
         [(toUPSRateRequest reqEx "A1B2C3" none, "tok")])) := by
  have h := callRatingApi_missing_shipments cfgEx reqEx "rid" "tok"
    { RateResponse := none } (.error .network) .otherFailure rfl
  exact ⟨h.1, h.2.2.2.2⟩

--------------------------------------------------------------------------------
-- C3: the five-minute validity boundary
--------------------------------------------------------------------------------

/-- C3: a cached credential is valid exactly when the current time is
strictly before its expiry minus the five-minute buffer; getAccessToken
calls strictly before that boundary return the cached token with no
refresh, and calls at or after the boundary trigger a refresh (one
authentication network call when the configured credentials are
nonempty). -/
theorem isTokenValid_boundary :
    ∀ (cfg : UPSConfig) (t : CachedToken) (now : ℤ) (outcome : AuthNetOutcome),
      (TOKEN_EXPIRY_BUFFER_MS = 5 * 60 * 1000) ∧
      (UPSAuthManager.isTokenValid (some t) now = true ↔
        now < t.expiresAt - 5 * 60 * 1000) ∧
      (now < t.expiresAt - 5 * 60 * 1000 →
        UPSAuthManager.getAccessToken cfg (some t) now outcome
          = (.ok t.accessToken, some t, 0)) ∧
      (t.expiresAt - 5 * 60 * 1000 ≤ now →
        (UPSAuthManager.getAccessToken cfg (some t) now outcome).2.2
          = (UPSAuthManager.refreshToken cfg now outcome).2) ∧
      (t.expiresAt - 5 * 60 * 1000 ≤ now → cfg.clientId ≠ "" →
        cfg.clientSecret ≠ "" →
        (UPSAuthManager.getAccessToken cfg (some t) now outcome).2.2 = 1) := by
  intro cfg t now outcome
  have hval : UPSAuthManager.isTokenValid (some t) now = true ↔
      now < t.expiresAt - 5 * 60 * 1000 := by
    simp [UPSAuthManager.isTokenValid, TOKEN_EXPIRY_BUFFER_MS]
  refine ⟨rfl, hval, ?_, ?_, ?_⟩
  · intro h
    have hv : UPSAuthManager.isTokenValid (some t) now = true := hval.mpr h
    simp [UPSAuthManager.getAccessToken, hv]
  · intro h
    have hv : UPSAuthManager.isTokenValid (some t) now = false := by
      rw [← Bool.not_eq_true, hval]
      omega
    rw [UPSAuthManager.getAccessToken, hv]
    simp only [Bool.false_eq_true, if_false]
    rcases hr : UPSAuthManager.refreshToken cfg now outcome with ⟨res, k⟩
    cases res <;> simp
  · intro h h1 h2
    have hv : UPSAuthManager.isTokenValid (some t) now = false := by
      rw [← Bool.not_eq_true, hval]
      omega
    have hcond : ¬(cfg.clientId = "" ∨ cfg.clientSecret = "") := by tauto
    rw [UPSAuthManager.getAccessToken, hv]
    simp only [Bool.false_eq_true, if_false]
    cases outcome <;> simp [UPSAuthManager.refreshToken, hcond]

/-- Witness for C3 with a credential expiring at millisecond 1000000: the
boundary sits at 700000; a call at 699999 reuses the cache, a call at
700000 refreshes. -/
theorem isTokenValid_boundary_witness :
    (UPSAuthManager.isTokenValid (some cachedEx) 699999 = true) ∧
    (UPSAuthManager.getAccessToken cfgEx (some cachedEx) 699999 (.ok tokRespEx)
      = (.ok "tok-cached", some cachedEx, 0)) ∧
    (UPSAuthManager.isTokenValid (some cachedEx) 700000 = false) ∧
    ((UPSAuthManager.getAccessToken cfgEx (some cachedEx) 700000
        (.ok tokRespEx)).2.2 = 1) := by
  have hb := isTokenValid_boundary cfgEx cachedEx 699999 (.ok tokRespEx)
  have ha := isTokenValid_boundary cfgEx cachedEx 700000 (.ok tokRespEx)
  refine ⟨hb.2.1.mpr (by norm_num [cachedEx]), ?_, ?_, ?_⟩
  · exact hb.2.2.1 (by norm_num [cachedEx])
  · rw [← Bool.not_eq_true, ha.2.1]
    norm_num [cachedEx]
  · exact ha.2.2.2.2 (by norm_num [cachedEx]) (by decide) (by decide)

--------------------------------------------------------------------------------
-- C4: forceRefresh always re-authenticates and replaces atomically
--------------------------------------------------------------------------------

/-- C4: for every state of the token cache (valid, expired or empty, with
no refresh in flight), forceRefresh discards the cached credential and
performs a new authentication call (exactly one network call when the
configured credentials are nonempty); the resulting cache is exactly the
refresh result, independent of the old credential, so on success the new
credential wholly and atomically replaces the old one. -/
theorem forceRefresh_replaces :
    ∀ (cfg : UPSConfig) (cache : Option CachedToken) (now : ℤ)
      (outcome : AuthNetOutcome) (resp : UPSTokenResponse),
      ((UPSAuthManager.forceRefresh cfg cache now outcome).2.1
        = (UPSAuthManager.refreshToken cfg now outcome).1.toOption) ∧
      (cfg.clientId ≠ "" → cfg.clientSecret ≠ "" →
        (UPSAuthManager.forceRefresh cfg cache now outcome).2.2 = 1) ∧
      (cfg.clientId ≠ "" → cfg.clientSecret ≠ "" →
        UPSAuthManager.forceRefresh cfg cache now (.ok resp)
          = (.ok resp.access_token,
             some { accessToken := resp.access_token
                  , expiresAt := now + resp.expires_in * 1000
                  , tokenType := resp.token_type }, 1)) := by
  intro cfg cache now outcome resp
  have hv : UPSAuthManager.isTokenValid none now = false := rfl
  refine ⟨?_, ?_, ?_⟩
  · rw [UPSAuthManager.forceRefresh, UPSAuthManager.getAccessToken, hv]
    simp only [Bool.false_eq_true, if_false]
    rcases hr : UPSAuthManager.refreshToken cfg now outcome with ⟨res, k⟩
    cases res <;> simp [Except.toOption]
  · intro h1 h2
    have hcond : ¬(cfg.clientId = "" ∨ cfg.clientSecret = "") := by tauto
    rw [UPSAuthManager.forceRefresh, UPSAuthManager.getAccessToken, hv]
    simp only [Bool.false_eq_true, if_false]
    cases outcome <;> simp [UPSAuthManager.refreshToken, hcond]
  · intro h1 h2
    have hcond : ¬(cfg.clientId = "" ∨ cfg.clientSecret = "") := by tauto
    rw [UPSAuthManager.forceRefresh, UPSAuthManager.getAccessToken, hv]
    simp [UPSAuthManager.refreshToken, hcond]

/-- Witness for C4: forcing a refresh while a still-valid credential is
cached performs the network call and installs the fresh credential. -/
theorem forceRefresh_replaces_witness :
    UPSAuthManager.forceRefresh cfgEx (some cachedEx) 0 (.ok tokRespEx)
      = (.ok "tok-fresh",
         some { accessToken := "tok-fresh", expiresAt := 3600000
              , tokenType := "Bearer" }, 1) := by
  have h := forceRefresh_replaces cfgEx (some cachedEx) 0 (.ok tokRespEx) tokRespEx
  exact h.2.2 (by decide) (by decide)

--------------------------------------------------------------------------------
-- C2: single auth retry in getRates
--------------------------------------------------------------------------------

/-- C2: when token acquisition succeeded and the rating call fails with
HTTP 401 or 403, getRates retries exactly once, sending the identical
wire request with the token obtained from the forced refresh; any failure
of the retry (including another 401, which surfaces as a carrier API
error with status 401) propagates with no further retry, and failures
with any other status are never retried. -/
theorem getRates_auth_retry :
    ∀ (cfg : UPSConfig) (request : RateRequest) (rid t fresh : String)
      (first second : ApiOutcome) (ro : Except CarrierError String)
      (e e2 eTok : CarrierError) (st : ℕ) (ra ra2 : Option String)
      (code code2 : Option String),
      (UPSRateService.getRates cfg request rid (.error eTok) first ro second
        = (.error eTok, [])) ∧
      (UPSRateService.isAuthError e = true ↔
        (e = .carrierApi 401 ∨ e = .carrierApi 403)) ∧
      (serviceTransportCode code = false → (st = 401 ∨ st = 403) →
        (UPSRateService.getRates cfg request rid (.ok t)
            (.axios code (some { status := st, retryAfterHeader := ra }))
            (.ok fresh) second).2
          = [(toUPSRateRequest request cfg.accountNumber none, t),
             (toUPSRateRequest request cfg.accountNumber none, fresh)]) ∧
      (serviceTransportCode code = false → (st = 401 ∨ st = 403) →
        UPSRateService.callRatingApi cfg second = .error e2 →
        UPSRateService.getRates cfg request rid (.ok t)
            (.axios code (some { status := st, retryAfterHeader := ra }))
            (.ok fresh) second
          = (.error e2,
             [(toUPSRateRequest request cfg.accountNumber none, t),
              (toUPSRateRequest request cfg.accountNumber none, fresh)])) ∧
      (serviceTransportCode code = false → serviceTransportCode code2 = false →
        UPSRateService.getRates cfg request rid (.ok t)
            (.axios code (some { status := 401, retryAfterHeader := ra }))
            (.ok fresh)
            (.axios code2 (some { status := 401, retryAfterHeader := ra2 }))
          = (.error (.carrierApi 401),
             [(toUPSRateRequest request cfg.accountNumber none, t),
              (toUPSRateRequest request cfg.accountNumber none, fresh)])) ∧
      (UPSRateService.callRatingApi cfg first = .error e →
        UPSRateService.isAuthError e = false →
        UPSRateService.getRates cfg request rid (.ok t) first ro second
          = (.error e,
             [(toUPSRateRequest request cfg.accountNumber none, t)])) := by
  intro cfg request rid t fresh first second ro e e2 eTok st ra ra2 code code2
  have hsplit : ∀ c : Option String, serviceTransportCode c = false →
      ¬(c = some "ECONNABORTED") ∧ ¬(c = some "ETIMEDOUT")
        ∧ ¬(c = some "ENOTFOUND") ∧ ¬(c = some "ECONNREFUSED")
        ∧ ¬(c = some "ECONNRESET") := by
    intro c hc
    simp only [serviceTransportCode, Bool.or_eq_false_iff,
      decide_eq_false_iff_not] at hc
    tauto
  have hauthchar : ∀ e : CarrierError, UPSRateService.isAuthError e = true ↔
      (e = .carrierApi 401 ∨ e = .carrierApi 403) := by
    intro e
    cases e <;> simp [UPSRateService.isAuthError]
  have hfirst401 : ∀ c : Option String, serviceTransportCode c = false →
      (st = 401 ∨ st = 403) →
      UPSRateService.callRatingApi cfg
          (.axios c (some { status := st, retryAfterHeader := ra }))
        = .error (.carrierApi st) := by
    intro c hc hst
    obtain ⟨hA, hB, hC, hD, hE⟩ := hsplit c hc
    have hne : st ≠ 429 := by omega
    simp [UPSRateService.callRatingApi, UPSRateService.handleAxiosError,
      hA, hB, hC, hD, hE, hne]
  refine ⟨rfl, hauthchar e, ?_, ?_, ?_, ?_⟩
  · intro hc hst
    have h1 := hfirst401 code hc hst
    have hauth : UPSRateService.isAuthError (.carrierApi st) = true := by
      rw [hauthchar]
      rcases hst with rfl | rfl
      · exact Or.inl rfl
      · exact Or.inr rfl
    rw [UPSRateService.getRates.eq_def]
    simp only [h1, hauth]
    rcases h2 : UPSRateService.callRatingApi cfg second with r2 | r2 <;> simp [h2]
  · intro hc hst h2
    have h1 := hfirst401 code hc hst
    have hauth : UPSRateService.isAuthError (.carrierApi st) = true := by
      rw [hauthchar]
      rcases hst with rfl | rfl
      · exact Or.inl rfl
      · exact Or.inr rfl
    rw [UPSRateService.getRates.eq_def]
    simp [h1, hauth, h2]
  · intro hc hc2
    have h1 : UPSRateService.callRatingApi cfg
        (.axios code (some { status := 401, retryAfterHeader := ra }))
        = .error (.carrierApi 401) := by
      obtain ⟨hA, hB, hC, hD, hE⟩ := hsplit code hc
      simp [UPSRateService.callRatingApi, UPSRateService.handleAxiosError,
        hA, hB, hC, hD, hE]
    have h2 : UPSRateService.callRatingApi cfg
        (.axios code2 (some { status := 401, retryAfterHeader := ra2 }))
        = .error (.carrierApi 401) := by
      obtain ⟨hA, hB, hC, hD, hE⟩ := hsplit code2 hc2
      simp [UPSRateService.callRatingApi, UPSRateService.handleAxiosError,
        hA, hB, hC, hD, hE]
    rw [UPSRateService.getRates.eq_def]
    simp [h1, h2, UPSRateService.isAuthError]
  · intro h1 hna
    rw [UPSRateService.getRates.eq_def]
    simp [h1, hna]

/-- Witness for C2: a first 401 followed by a second 401 performs exactly
two rating calls, the second with the forced-refresh token, and fails
with a carrier API error of status 401; a 500 failure is not retried. -/
theorem getRates_auth_retry_witness :
    (UPSRateService.getRates cfgEx reqEx "rid" (.ok "tok-old")
        (.axios none (some { status := 401, retryAfterHeader := none }))
        (.ok "tok-fresh")
        (.axios none (some { status := 401, retryAfterHeader := none }))
      = (.error (.carrierApi 401),
         [(toUPSRateRequest reqEx "A1B2C3" none, "tok-old"),
          (toUPSRateRequest reqEx "A1B2C3" none, "tok-fresh")])) ∧
    (UPSRateService.getRates cfgEx reqEx "rid" (.ok "tok-old")
        (.axios none (some { status := 500, retryAfterHeader := none }))
        (.ok "tok-fresh") .otherFailure
      = (.error (.carrierApi 500),
         [(toUPSRateRequest reqEx "A1B2C3" none, "tok-old")])) := by
  have h := getRates_auth_retry cfgEx reqEx "rid" "tok-old" "tok-fresh"
    (.axios none (some { status := 500, retryAfterHeader := none }))
    (.axios none (some { status := 401, retryAfterHeader := none }))
    (.ok "tok-fresh") (.carrierApi 500) (.carrierApi 401) .network 401
    none none none none
  refine ⟨h.2.2.2.2.1 rfl rfl, ?_⟩
  refine h.2.2.2.2.2 ?_ ?_
  · simp [UPSRateService.callRatingApi, UPSRateService.handleAxiosError]
  · simp [UPSRateService.isAuthError]

--------------------------------------------------------------------------------
-- C1: refresh deduplication across concurrent callers
--------------------------------------------------------------------------------

/-- Helper: while a refresh is in flight and the cache is invalid, every
arriving caller joins the pending refresh, changing nothing but the
caller list. -/
theorem arriveN_join (cfg : UPSConfig) (now : ℤ) :
    ∀ (k : ℕ) (s : LoopState), s.marker = true →
      UPSAuthManager.isTokenValid s.cache now = false →
      arriveN cfg now k s
        = { s with callers := s.callers ++ List.replicate k .waiting } := by
  intro k
  induction k with
  | zero =>
    intro s hm hv
    simp [arriveN]
  | succ n ih =>
    intro s hm hv
    have hstep : callerArrive cfg now s
        = { s with callers := s.callers ++ [.waiting] } := by
      rw [callerArrive]
      simp [hv, hm]
    rw [arriveN, hstep, ih _ (by simp [hm]) (by simp [hv])]
    simp [List.replicate_succ]

/-- C1: for N concurrent getAccessToken calls arriving while no valid
credential is cached (and no refresh is in flight), exactly one
authentication network call is performed; every caller receives the
identical result of that single refresh (the token on success, the same
classified failure otherwise); the in-flight marker is clear once the
refresh settles; and after a failed refresh the next arriving call starts
a fresh attempt with a new network call rather than replaying the failed
one. -/
theorem getAccessToken_dedup :
    ∀ (cfg : UPSConfig) (cache : Option CachedToken) (now : ℤ) (n : ℕ)
      (outcome : AuthNetOutcome),
      cfg.clientId ≠ "" → cfg.clientSecret ≠ "" → 1 ≤ n →
      UPSAuthManager.isTokenValid cache now = false →
      ((runConcurrentGetAccessToken cfg cache now n outcome).networkCalls = 1) ∧
      ((runConcurrentGetAccessToken cfg cache now n outcome).callers
        = List.replicate n (.done (tokenResultOf
            (UPSAuthManager.refreshToken cfg now outcome).1))) ∧
      ((runConcurrentGetAccessToken cfg cache now n outcome).marker = false) ∧
      (∀ e, (UPSAuthManager.refreshToken cfg now outcome).1 = .error e →
        (callerArrive cfg now
            (runConcurrentGetAccessToken cfg cache now n outcome)).networkCalls
          = (runConcurrentGetAccessToken cfg cache now n outcome).networkCalls
              + 1) := by
  intro cfg cache now n outcome h1 h2 hn hv
  have hcond : ¬(cfg.clientId = "" ∨ cfg.clientSecret = "") := by tauto
  obtain ⟨m, rfl⟩ : ∃ m, n = m + 1 := ⟨n - 1, by omega⟩
  have hfirst : callerArrive cfg now
      { cache := cache, marker := false, networkCalls := 0, callers := [] }
      = { cache := cache, marker := true, networkCalls := 1
        , callers := [.waiting] } := by
    rw [callerArrive]
    simp [hv, hcond]
  have hjoin := arriveN_join cfg now m
    { cache := cache, marker := true, networkCalls := 1, callers := [.waiting] }
    rfl hv
  have hrun : runConcurrentGetAccessToken cfg cache now (m + 1) outcome
      = settleRefresh cfg now outcome
          { cache := cache, marker := true, networkCalls := 1
          , callers := List.replicate (m + 1) .waiting } := by
    rw [runConcurrentGetAccessToken]
    rw [show arriveN cfg now (m + 1)
        { cache := cache, marker := false, networkCalls := 0, callers := [] }
      = arriveN cfg now m (callerArrive cfg now
        { cache := cache, marker := false, networkCalls := 0, callers := [] })
      from rfl]
    rw [hfirst, hjoin]
    simp [List.replicate_succ]
  cases hE : (UPSAuthManager.refreshToken cfg now outcome).1 with
  | ok c =>
    have hsettle : runConcurrentGetAccessToken cfg cache now (m + 1) outcome
        = { cache := some c, marker := false, networkCalls := 1
          , callers := List.replicate (m + 1) (.done (.ok c.accessToken)) } := by
      rw [hrun, settleRefresh]
      simp [hE, List.map_replicate, resolveWaiting]
    rw [hsettle]
    refine ⟨rfl, ?_, rfl, ?_⟩
    · simp [tokenResultOf, hE]
    · intro e he
      simp at he
  | error e0 =>
    have hsettle : runConcurrentGetAccessToken cfg cache now (m + 1) outcome
        = { cache := cache, marker := false, networkCalls := 1
          , callers := List.replicate (m + 1) (.done (.error e0)) } := by
      rw [hrun, settleRefresh]
      simp [hE, List.map_replicate, resolveWaiting]
    rw [hsettle]
    refine ⟨rfl, ?_, rfl, ?_⟩
    · simp [tokenResultOf, hE]
    · intro e he
      rw [callerArrive]
      simp [hv, hcond]

/-- Witness for C1: three concurrent callers with an expired cached
credential and a successful refresh outcome perform one network call and
all read the fresh token; with a failing refresh the marker is clear and
a fourth arrival performs a second network call. -/
theorem getAccessToken_dedup_witness :
    ((runConcurrentGetAccessToken cfgEx (some cachedEx) 1000000 3
        (.ok tokRespEx)).networkCalls = 1) ∧
    ((runConcurrentGetAccessToken cfgEx (some cachedEx) 1000000 3
        (.ok tokRespEx)).callers
      = List.replicate 3 (.done (.ok "tok-fresh"))) ∧
    ((runConcurrentGetAccessToken cfgEx (some cachedEx) 1000000 3
        (.ok tokRespEx)).marker = false) ∧
    ((callerArrive cfgEx 1000000
        (runConcurrentGetAccessToken cfgEx (some cachedEx) 1000000 3
          (.axios none none))).networkCalls = 2) := by
  have hv : UPSAuthManager.isTokenValid (some cachedEx) 1000000 = false := by
    simp [UPSAuthManager.isTokenValid, cachedEx, TOKEN_EXPIRY_BUFFER_MS]
  have hok := getAccessToken_dedup cfgEx (some cachedEx) 1000000 3
    (.ok tokRespEx) (by decide) (by decide) (by omega) hv
  have hfail := getAccessToken_dedup cfgEx (some cachedEx) 1000000 3
    (.axios none none) (by decide) (by decide) (by omega) hv
  refine ⟨hok.1, ?_, hok.2.2.1, ?_⟩
  · rw [hok.2.1]
    simp [UPSAuthManager.refreshToken, cfgEx, tokenResultOf, tokRespEx]
  · rw [hfail.2.2.2 .network ?_, hfail.1]
    simp [UPSAuthManager.refreshToken, UPSAuthManager.handleAxiosError, cfgEx]
